import Mathlib

/-
Verification of the per-channel orchestration engine of the oobabot2
repository (src/oobabot/discord_bot.py and collaborators), as described
by its natural-language specification.

The Python code is shallowly embedded: the dictionaries keyed by channel
id become association lists over Nat, asyncio tasks become records
carrying a done flag, and each method that contains an await point is
split at that point into the atomic steps the single-threaded cooperative
scheduler actually executes.
-/

/-- Lookup in a Python-style dict modelled as an association list.
Models `d.get(k, None)` / `d[k]` guarded by `k in d`. -/
def dictGet {α : Type} (l : List (Nat × α)) (k : Nat) : Option α :=
  match l with
  | [] => none
  | (k2, v) :: rest => if k2 = k then some v else dictGet rest k

/-- Insert-or-replace in a Python-style dict: models `d[k] = v`. -/
def dictSet {α : Type} (l : List (Nat × α)) (k : Nat) (v : α) : List (Nat × α) :=
  match l with
  | [] => [(k, v)]
  | (k2, v2) :: rest => if k2 = k then (k, v) :: rest else (k2, v2) :: dictSet rest k v

/-- Removal from a Python-style dict: models `d.pop(k, None)`. -/
def dictPop {α : Type} (l : List (Nat × α)) (k : Nat) : List (Nat × α) :=
  match l with
  | [] => []
  | (k2, v2) :: rest => if k2 = k then dictPop rest k else (k2, v2) :: dictPop rest k

/-- A response task handle (asyncio.Task): `done` is the result of
`task.done()`, `cancelRequested` records that `task.cancel()` was called
on a task that had not finished yet. -/
structure RTask where
  done : Bool
  cancelRequested : Bool
deriving DecidableEq

/-- The per-channel state of `MessageQueue` (discord_bot.py lines 32 to 66).
Queues and buffers are deques of message ids with the head of the list as
the left end of the deque.  Wait tasks and panic tasks only ever have their
`done()` status observed, so they are modelled by that Bool, with `true`
meaning done. -/
structure MQ where
  respondToLatestOnly : Bool
  queues : List (Nat × List Nat)
  buffers : List (Nat × List Nat)
  waitTasks : List (Nat × Bool)
  responseTasks : List (Nat × RTask)
  panicTasks : List (Nat × Bool)
deriving DecidableEq

/-- Source: `MessageQueue.get_queue_length` (lines 324 to 327). -/
def MQ.getQueueLength (s : MQ) (ch : Nat) : Nat :=
  match dictGet s.queues ch with
  | some q => q.length
  | none => 0

/-- Source: `MessageQueue.is_buffering` (lines 140 to 147). -/
def MQ.isBuffering (s : MQ) (ch : Nat) : Bool :=
  match dictGet s.waitTasks ch with
  | some taskDone => !taskDone
  | none => false

/-- Source: `MessageQueue.is_responding` (lines 237 to 243). -/
def MQ.isResponding (s : MQ) (ch : Nat) : Bool :=
  match dictGet s.responseTasks ch with
  | some t => !t.done
  | none => false

/-- Source: `MessageQueue.is_panicking` (lines 192 to 198). -/
def MQ.isPanicking (s : MQ) (ch : Nat) : Bool :=
  match dictGet s.panicTasks ch with
  | some taskDone => !taskDone
  | none => false

/-- Source: `MessageQueue.appendleft` (lines 275 to 276), together with
`_ensure_queue` (lines 360 to 367). -/
def MQ.appendleft (s : MQ) (ch : Nat) (m : Nat) : MQ :=
  { s with queues := dictSet s.queues ch (m :: ((dictGet s.queues ch).getD [])) }

/-- Source: `MessageQueue.extendleft` (lines 303 to 306), together with
`_ensure_queue`.  `deque.extendleft` pushes the elements one by one onto
the left end, so the iterable ends up reversed in front of the old
contents. -/
def MQ.extendleft (s : MQ) (ch : Nat) (ms : List Nat) : MQ :=
  { s with queues := dictSet s.queues ch (ms.reverse ++ ((dictGet s.queues ch).getD [])) }

/-- Source: `MessageQueue.clear` (lines 292 to 296) followed by
`_remove_empty_queue` (lines 369 to 377): clearing the deque always leaves
it empty, so the entry is removed.  The ValueError branch of `clear` is
never reached here because every caller in the source first checks
`get_queue_length`. -/
def MQ.clearQueue (s : MQ) (ch : Nat) : MQ :=
  { s with queues := dictPop s.queues ch }

/-- Source: `MessageQueue.cancel_response_task` (lines 226 to 235).
Requests cancellation of a present, not yet done task; the task itself
finishes asynchronously, so only the cancelRequested flag changes. -/
def MQ.cancelResponseTask (s : MQ) (ch : Nat) : MQ × Bool :=
  match dictGet s.responseTasks ch with
  | some t =>
    if !t.done then
      ({ s with responseTasks :=
          dictSet s.responseTasks ch { t with cancelRequested := true } }, true)
    else (s, false)
  | none => (s, false)

/-- Source: `MessageQueue.add_response_task` (lines 200 to 210).
`asyncio.create_task` stores a fresh, running task under the channel id;
the done callback that later removes it runs only when the task finishes. -/
def MQ.addResponseTask (s : MQ) (ch : Nat) : MQ :=
  { s with responseTasks := dictSet s.responseTasks ch { done := false, cancelRequested := false } }

/-- Source: `DiscordBot.process_messages`, lines 881 to 890: the final
guard and the sole call site of `add_response_task`.  There is no await
point between the guard and the task creation, so under the cooperative
scheduler the pair is one atomic step.  The returned Bool reports whether
a new response task was created. -/
def processMessagesTail (s : MQ) (ch : Nat) : MQ × Bool :=
  if s.isResponding ch || s.getQueueLength ch == 0 then (s, false)
  else (s.addResponseTask ch, true)

/-- Source: `MessageQueue.panic` (lines 170 to 182).  If the channel is
already panicking the call returns immediately; otherwise it creates a
fresh, running panic task.  The body coroutine `_panic` only starts
running at a later scheduler step. -/
def MQ.panic (s : MQ) (ch : Nat) : MQ :=
  if s.isPanicking ch then s
  else { s with panicTasks := dictSet s.panicTasks ch false }

/-- Source: the synchronous prelude of `MessageQueue._panic` (lines 158
to 164), the part of the panic task body that runs before its first await
point: drop the buffer of the channel if accumulating, clear its queue if
nonempty, and request cancellation of a running response task. -/
def MQ.panicBodyStart (s : MQ) (ch : Nat) : MQ :=
  let s1 := if s.isBuffering ch then { s with buffers := dictPop s.buffers ch } else s
  let s2 := if s1.getQueueLength ch != 0 then s1.clearQueue ch else s1
  if s2.isResponding ch then (s2.cancelResponseTask ch).1 else s2

/-- Source: `MessageQueue.buffer` (lines 90 to 111), up to and including
the await on the wait task.  The message is prepended to the buffer of the
channel (creating the buffer if needed); if no accumulation wait is
running, a fresh running wait task is registered and the caller becomes
the starter (the returned Bool is the eventual return value
task_created).  A caller that sees a running wait task changes nothing
else and returns False immediately. -/
def MQ.bufferEnter (s : MQ) (ch : Nat) (m : Nat) : MQ × Bool :=
  let s1 : MQ :=
    { s with buffers := dictSet s.buffers ch (m :: ((dictGet s.buffers ch).getD [])) }
  if s1.isBuffering ch then (s1, false)
  else ({ s1 with waitTasks := dictSet s1.waitTasks ch false }, true)

/-- Source: `MessageQueue.buffer` (lines 112 to 117), the part after the
await on the wait task: pop the wait task, and if the buffer of the
channel is present and nonempty, pop the buffer and flush it into the
queue, either only its leftmost (latest) message when respond_to_latest_only
is configured, or the whole batch otherwise. -/
def MQ.bufferFlush (s : MQ) (ch : Nat) : MQ :=
  let s1 : MQ := { s with waitTasks := dictPop s.waitTasks ch }
  match dictGet s1.buffers ch with
  | none => s1
  | some [] => s1
  | some (latest :: rest) =>
    let s2 : MQ := { s1 with buffers := dictPop s1.buffers ch }
    if s2.respondToLatestOnly then s2.appendleft ch latest
    else s2.extendleft ch (latest :: rest)

/-- Source: the while loop of `MessageQueue._accumulate_messages` (lines
74 to 84), discretized at its own granularity of one sleep(0.1) per
iteration: `t` counts elapsed ticks (time.time() relative to start_time,
in 0.1 second units, with `period` the accumulation period in the same
units), `q` is the local variable queue_length, and `len t` is
get_queue_length of the channel at tick t.  The fuel argument makes the
recursion structural; it is chosen large enough that it never runs out.
Returns the tick at which the loop exits. -/
def accumulateAux (n period : Nat) (len : Nat → Nat) : Nat → Nat → Nat → Nat
  | 0, t, _ => t
  | fuel + 1, t, q =>
    if len t < q + n + 1 ∧ t < period then
      accumulateAux n period len fuel (t + 1) (len (t + 1))
    else t

/-- Source: `MessageQueue._accumulate_messages` (lines 68 to 86).  With
continue_on_additional_messages set (n nonzero) it runs the polling loop
starting from queue_length = len 0; otherwise it sleeps for the whole
accumulation period.  Returns the tick at which the wait releases. -/
def accumulateMessages (n period : Nat) (len : Nat → Nat) : Nat :=
  if n ≠ 0 then accumulateAux n period len (period + 1) 0 (len 0)
  else period

/-- Release tick of the accumulation wait as the specification describes
it.  Modelled from the spec: the wait releases as soon as n additional
messages have arrived during the wait, or after the period has elapsed,
whichever comes first. -/
def accumulateReleaseSpec (n period : Nat) (len : Nat → Nat) : Nat :=
  match (List.range (period + 1)).find? (fun t => len 0 + n + 1 ≤ len t) with
  | some t => t
  | none => period

/-- Arrival trace for the C3 boundary example: the queue of the channel
holds 0 messages when the wait starts, and 3 messages from tick 1 on
(3 total messages arrived 0.1 seconds into the wait). -/
def exArrivals (t : Nat) : Nat :=
  if t = 0 then 0 else 3

/-- Parameters of `PromptGenerator.generate` (prompt_generator.py lines
407 to 414), in order, all without defaults. -/
def promptGeneratorGenerateParams : List String :=
  ["message_history", "image_requested", "bot_user_id", "guild_name", "response_channel"]

/-- Keyword arguments of the call to `self.prompt_generator.generate` in
`DiscordBot._generate_text_response` (discord_bot.py lines 1119 to 1125). -/
def generateTextResponseCallKwargs : List String :=
  ["bot_user_id", "message_history", "guild_name", "channel_name", "image_requested"]

/-- Python keyword-argument binding for a call that passes keyword
arguments only and targets a function without defaults: the first keyword
that matches no parameter makes the call raise TypeError (unexpected
keyword argument) before the function body runs; otherwise any parameter
left unbound raises TypeError (missing argument) likewise. -/
def pyBindKwargs (params kwargs : List String) : Option String :=
  match kwargs.find? (fun k => !(params.contains k)) with
  | some bad => some bad
  | none => params.find? (fun p => !(kwargs.contains p))

/-- Result of a Python call: either the value of the body, or a TypeError
raised during argument binding, carrying the offending name. -/
inductive PyCall (α : Type) where
  | ok : α → PyCall α
  | typeErr : String → PyCall α
deriving DecidableEq

/-- The prompt-generation step of `DiscordBot._generate_text_response`
(discord_bot.py lines 1119 to 1125): argument binding of the call to
`PromptGenerator.generate` happens first; only if it succeeds does the
body run (and only after the prompt is built does the method reach the
backend request at lines 1176 to 1191). -/
def callPromptGeneratorGenerate {α : Type} (body : Unit → α) : PyCall α :=
  match pyBindKwargs promptGeneratorGenerateParams generateTextResponseCallKwargs with
  | some bad => PyCall.typeErr bad
  | none => PyCall.ok (body ())

/-- Python truthiness of an optional message id: None and 0 are falsy. -/
def pyTruthyId : Option Nat → Bool
  | none => false
  | some n => n != 0

/-- Python `a or b` on optional message ids. -/
def pyOrId (a b : Option Nat) : Option Nat :=
  if pyTruthyId a then a else b

/-- Source: the history cut-off passed to
`_recent_messages_following_thread` by
`DiscordBot._send_text_response_in_channel` (discord_bot.py lines 1313
to 1336): `stop_before_message_id = repeated_id or history_marker_id`,
where repeated_id is the automatic throttle message id and
history_marker_id the manual marker of the channel. -/
def stopBeforeMessageIdArg (repeatedId historyMarkerId : Option Nat) : Option Nat :=
  pyOrId repeatedId historyMarkerId

/-- The two child tasks `_handle_response` may launch: the text-message
task returned by `_send_text_response` and the image task returned by
`image_generator.generate_image`. -/
inductive ChildTask where
  | messageTask : ChildTask
  | imageTask : ChildTask
deriving DecidableEq

/-- Inputs determining the control flow of `DiscordBot._handle_response`
(discord_bot.py lines 929 to 1003): whether an image generator is
configured, whether `maybe_get_image_prompt` found a prompt, the result
of `try_session`, whether `_send_text_response` returned a task rather
than None, whether CancelledError was raised while awaiting
`asyncio.wait`, and which child tasks belong to the `done` set of
`asyncio.wait(..., return_when=FIRST_COMPLETED)` at the moment it
returns (a task that completed, with or without an exception, before the
await resumed; meaningful when no cancellation occurred). -/
structure HandleRespInput where
  imageGeneratorEnabled : Bool
  imagePromptFound : Bool
  sessionReserved : Bool
  textTaskCreated : Bool
  cancelledDuringWait : Bool
  messageDoneFirst : Bool
  imageDoneFirst : Bool
deriving DecidableEq

/-- Task bookkeeping performed by one run of `_handle_response`: the
child tasks it collected into response_tasks, the child tasks its
CancelledError handler cancelled and then awaited, and the child tasks
whose `task.exception()` the done loop inspected (logging the exception
when one is present). -/
structure HandleRespResult where
  children : List ChildTask
  cancelledAwaited : List ChildTask
  excInspected : List ChildTask
  earlyExit : Bool
deriving DecidableEq

/-- Source: lines 945 to 952 and 966 to 973 of discord_bot.py: an image
task is started iff the image generator is configured, an image prompt
was found, and `try_session` reserved a session. -/
def imageTaskStarted (i : HandleRespInput) : Bool :=
  i.imageGeneratorEnabled && i.imagePromptFound && i.sessionReserved

/-- Membership of a child task in the first-completed set of
`asyncio.wait` (discord_bot.py lines 981 to 984). -/
def doneFirstChild (i : HandleRespInput) : ChildTask → Bool
  | ChildTask.messageTask => i.messageDoneFirst
  | ChildTask.imageTask => i.imageDoneFirst

/-- Source: `DiscordBot._handle_response` (lines 929 to 1003), reduced to
its task bookkeeping.  If `_send_text_response` returned None the method
returns before creating tasks.  Otherwise response_tasks holds the
message task and, when started, the image task.  When `asyncio.wait`
returns normally, the `for task in done` loop (lines 985 to 993) calls
`task.exception()` on exactly the tasks of its first-completed set and
logs the exceptions it finds.  On CancelledError from `asyncio.wait`
that loop is skipped, so no exception is inspected or logged, and the
handler (lines 994 to 1003) cancels and awaits every response task only
under `if not image_task` (line 995): when an image task was started, no
child task is cancelled or awaited. -/
def handleResponseTasks (i : HandleRespInput) : HandleRespResult :=
  if !i.textTaskCreated then
    { children := [], cancelledAwaited := [], excInspected := [], earlyExit := true }
  else
    let children :=
      ChildTask.messageTask :: (if imageTaskStarted i then [ChildTask.imageTask] else [])
    { children := children,
      cancelledAwaited :=
        if i.cancelledDuringWait && !(imageTaskStarted i) then children else [],
      excInspected :=
        if i.cancelledDuringWait then [] else children.filter (doneFirstChild i),
      earlyExit := false }

/-- Classes of exception that can reach the try block of
`DiscordBot._process_message_queue` (lines 913 to 923).  `discordExc`
stands for discord.DiscordException and every subclass of it.
`oobaHttpClientErr` is the error type of the text and image backends.
Modelled from the spec: the http_client module is not under src, and the
spec error taxonomy lists TransientBackendError apart from the platform
errors; within src, image_generator.py lines 126 and 336 catch
`http_client.OobaHttpClientError` alongside `discord.DiscordException` as
a distinct class. -/
inductive PyExc where
  | discordExc : PyExc
  | oobaHttpClientErr : PyExc
  | typeErrorExc : PyExc
  | otherExc : PyExc
deriving DecidableEq

/-- Whether an exception is matched by `except discord.DiscordException`. -/
def isDiscordExc : PyExc → Bool
  | PyExc.discordExc => true
  | _ => false

/-- Source: the while loop of `DiscordBot._process_message_queue` (lines
898 to 923), processing the popped messages oldest first.  `respond`
models `decide_to_respond.should_respond_to_message` (a collaborator
whose module is not under src) and `behavior` the outcome of
`_handle_response` for each message: None when it returns, or the
exception it raises.  Only discord.DiscordException is caught and logged;
any other exception propagates out of the loop. -/
def processQueueAux (behavior : Nat → Option PyExc) (respond : Nat → Bool) :
    List Nat → List Nat → Except PyExc (List Nat)
  | [], handled => Except.ok handled
  | m :: rest, handled =>
    if respond m then
      match behavior m with
      | none => processQueueAux behavior respond rest (handled ++ [m])
      | some e =>
        if isDiscordExc e then processQueueAux behavior respond rest (handled ++ [m])
        else Except.error e
    else processQueueAux behavior respond rest handled

/-- Source: `DiscordBot._process_message_queue` (lines 892 to 927).  The
queue is a deque with its newest message at the head of the list and
`pop()` takes from the right, so messages are processed in the order of
the reversed list.  On normal completion the guarantee tracker of the
channel is purged (the Bool of the result); an escaping exception
terminates the loop before the purge. -/
def processMessageQueueModel (behavior : Nat → Option PyExc) (respond : Nat → Bool)
    (queue : List Nat) : Except PyExc (List Nat × Bool) :=
  match processQueueAux behavior respond queue.reverse [] with
  | Except.ok handled => Except.ok (handled, true)
  | Except.error e => Except.error e

/-- Whether a run of the queue-processing loop reached the
`purge_guarantees` call at its end. -/
def purgeRan (r : Except PyExc (List Nat × Bool)) : Bool :=
  match r with
  | Except.ok (_, b) => b
  | Except.error _ => false

/-- Outcome of `_handle_response` for the C8 counterexample: the oldest
queued message makes the backend raise its client error, the other
message would succeed. -/
def exQueueBehavior (m : Nat) : Option PyExc :=
  if m = 1 then some PyExc.oobaHttpClientErr else none

/-- Python str.rstrip applied with a space argument: remove trailing
spaces only. -/
def rstripSpaces (s : String) : String :=
  String.mk (s.data.reverse.dropWhile (fun c => c = ' ')).reverse

/-- The whitespace characters Python str.strip removes. -/
def isPySpace (c : Char) : Bool :=
  (c = ' ') || (c = '\t') || (c = '\n') || (c = '\r')

/-- Python str.strip without arguments: remove leading and trailing
whitespace. -/
def pyStrip (s : String) : String :=
  String.mk (((s.data.dropWhile isPySpace).reverse.dropWhile isPySpace).reverse)

/-- The two streaming configurations of `_render_streaming_response`:
stream_responses equal to token or to sentence. -/
inductive StreamKind where
  | tokenMode : StreamKind
  | sentenceMode : StreamKind
deriving DecidableEq

/-- An outbound operation of the streaming renderer: a new message sent
to the channel, or an edit of the message sent last. -/
inductive RenderEv where
  | sendMsg : String → RenderEv
  | editMsg : String → RenderEv
deriving DecidableEq

/-- The loop state of `DiscordBot._render_streaming_response`
(discord_bot.py lines 1692 to 1697), with the outbound operations
recorded in order.  `lastMessageExists` holds when the local
last_message is not None. -/
structure RenderSt where
  buffer : String
  response : String
  lastMessageExists : Bool
  sentMessageCount : Nat
  abortResponse : Bool
  events : List RenderEv
deriving DecidableEq

/-- Initial renderer state (lines 1692 to 1697); existingMessage is true
for the regeneration path that edits an existing message. -/
def renderInit (existingMessage : Bool) : RenderSt :=
  { buffer := "", response := "", lastMessageExists := existingMessage,
    sentMessageCount := 0, abortResponse := false, events := [] }

/-- Source: the shared tail of one loop iteration of
`_render_streaming_response` (lines 1734 to 1773): skip empty responses
(continue, losing the abort flag of this unit), otherwise send a new
message or edit the last one, and break afterwards iff the filter
requested an abort for this unit.  The second component is true when the
loop breaks. -/
def renderEmit (st : RenderSt) (buf resp : String) (lastEx abort : Bool) :
    RenderSt × Bool :=
  if pyStrip resp = "" then
    ({ st with
        buffer := buf, response := resp, lastMessageExists := lastEx,
        abortResponse := abort }, false)
  else if !lastEx then
    ({ st with
        buffer := buf, response := resp, lastMessageExists := true,
        sentMessageCount := st.sentMessageCount + 1,
        abortResponse := abort,
        events := st.events ++ [RenderEv.sendMsg (pyStrip resp)] }, abort)
  else
    ({ st with
        buffer := buf, response := resp, lastMessageExists := true,
        sentMessageCount := if st.sentMessageCount = 0 then 1 else st.sentMessageCount,
        abortResponse := abort,
        events := st.events ++ [RenderEv.editMsg (pyStrip resp)] }, abort)

/-- Source: one iteration of the `async for tokens in response_iterator`
loop of `_render_streaming_response` (lines 1699 to 1773), with `f` the
immersion-breaking filter (a collaborator whose module is not under src).
Token mode refilters the running buffers extended by the new tokens and
starts a new message when the character limit is exceeded; sentence mode
filters the unit alone, skips it while it is empty, and appends it to the
running response.  The second component is true when the loop breaks. -/
def renderUnit (mode : StreamKind) (f : String → String × Bool) (limit : Nat)
    (st : RenderSt) (tokens : String) : RenderSt × Bool :=
  match mode with
  | StreamKind.tokenMode =>
    if tokens = "" then (st, false)
    else
      let fb := f (st.buffer ++ tokens)
      let hitLimit := limit < (pyStrip fb.1).length
      let buf := if hitLimit then "" else fb.1
      let resp0 := if hitLimit then "" else st.response
      let lastEx := if hitLimit then false else st.lastMessageExists
      let fr := f (resp0 ++ tokens)
      renderEmit st buf fr.1 lastEx fr.2
  | StreamKind.sentenceMode =>
    let fs := f tokens
    if fs.1 = "" then ({ st with abortResponse := fs.2 }, false)
    else
      let sentence := rstripSpaces fs.1 ++ " "
      let hitLimit := limit < (pyStrip (st.response ++ sentence)).length
      let resp0 := if hitLimit then "" else st.response
      let lastEx := if hitLimit then false else st.lastMessageExists
      renderEmit st st.buffer (resp0 ++ sentence) lastEx fs.2

/-- Source: the full unit-consuming loop of `_render_streaming_response`
(lines 1699 to 1773) over the stream of units. -/
def renderLoop (mode : StreamKind) (f : String → String × Bool) (limit : Nat) :
    List String → RenderSt → RenderSt
  | [], st => st
  | u :: rest, st =>
    if (renderUnit mode f limit st u).2 then (renderUnit mode f limit st u).1
    else renderLoop mode f limit rest (renderUnit mode f limit st u).1

/-- Source: `_render_streaming_response` (lines 1667 to 1781): run the
loop from the initial state and return the sent message count and the
abort flag (line 1781). -/
def renderStreamingResponse (mode : StreamKind) (f : String → String × Bool)
    (limit : Nat) (units : List String) (existingMessage : Bool) : Nat × Bool :=
  ((renderLoop mode f limit units (renderInit existingMessage)).sentMessageCount,
    (renderLoop mode f limit units (renderInit existingMessage)).abortResponse)

/-- Filter behavior for the C7 counterexample: a unit that is entirely a
line spoken by another participant is discarded whole with abort
requested (spec section 4.5 step b), any other unit passes unchanged. -/
def exImpersonationFilter (s : String) : String × Bool :=
  if s = "Bob: hi" then ("", true) else (s, false)

/-- Filter behavior for the C7 amended witness: the unit contains a stop
marker at its very end, so the filter keeps the content and requests
abort (spec section 4.5 step c). -/
def exStopMarkerFilter (s : String) : String × Bool :=
  (s, true)

/-- Discord message types relevant to history filtering. -/
inductive DMsgType where
  | defaultMsg : DMsgType
  | replyMsg : DMsgType
  | threadCreated : DMsgType
  | otherSystem : DMsgType
deriving DecidableEq

/-- The fields of a raw Discord history message read by
`_filter_history_message` and `_filtered_history_iterator`.
`hiddenContent` models `decide_to_respond.is_hidden_message(content)` and
`hiddenByReaction` models `_is_hidden_by_reaction` (both depend on
collaborator state outside this core). -/
structure DMsgCore where
  id : Nat
  msgType : DMsgType
  authorId : Nat
  suppressEmbeds : Bool
  hiddenContent : Bool
  hiddenByReaction : Bool
deriving DecidableEq

/-- A history message together with the resolved message it replies to,
if any (`message.reference.resolved`). -/
structure DMsg where
  core : DMsgCore
  refResolved : Option DMsgCore
deriving DecidableEq

/-- The view of a message that history assembly yields:
`authorRenamed` records that the author name was replaced by the persona
name, `sanitized` that the discord_utils mention and emoji replacements
ran. -/
structure GenMsg where
  id : Nat
  authorRenamed : Bool
  sanitized : Bool
deriving DecidableEq

/-- Source: `discord_utils.discord_message_to_generic_message` reduced to
the fields history assembly depends on. -/
def toGenericMessage (m : DMsgCore) : GenMsg :=
  { id := m.id, authorRenamed := false, sanitized := false }

/-- The mention, channel and emoji replacement calls of
`_filter_history_message` (lines 1836 to 1864); the discord_utils module
is outside this core, so only the fact that the replacements ran is
recorded. -/
def applyMentionSanitize (g : GenMsg) : GenMsg :=
  { g with sanitized := true }

/-- Source: `DiscordBot._filter_history_message` (discord_bot.py lines
1783 to 1865).  At the throttle or marker message the generic message is
returned together with allow_more = False; system messages, hidden
messages and image-generator messages yield None; bot-authored text
messages get the persona name; all surviving messages are sanitized. -/
def filterHistoryMessage (botUserId : Nat) (stopBeforeId : Option Nat) (m : DMsgCore) :
    Option GenMsg × Bool :=
  if pyTruthyId stopBeforeId = true ∧ stopBeforeId = some m.id then
    (some (toGenericMessage m), false)
  else if m.msgType ≠ DMsgType.defaultMsg ∧ m.msgType ≠ DMsgType.replyMsg then
    (none, true)
  else if m.hiddenContent || m.hiddenByReaction then
    (none, true)
  else if m.authorId = botUserId then
    if !m.suppressEmbeds then (none, true)
    else (some (applyMentionSanitize { toGenericMessage m with authorRenamed := true }), true)
  else (some (applyMentionSanitize (toGenericMessage m)), true)

/-- Source: the loop and trailing reply-following branch of
`DiscordBot._filtered_history_iterator` (lines 1897 to 1969).  `items`
counts yielded messages, `ignoringAll` is the ignoring_all flag and
`lastReturned` the last message handed to `_filter_history_message`. -/
def filteredHistoryAux (botUserId : Nat) (stopBeforeId ignoreUntilId : Option Nat)
    (limit : Nat) :
    List DMsg → Nat → Bool → Option DMsg → List GenMsg
  | [], items, _, lastReturned =>
    match lastReturned with
    | none => []
    | some lr =>
      if items < limit then
        match lr.refResolved with
        | none => []
        | some rc =>
          match (filterHistoryMessage botUserId stopBeforeId rc).1 with
          | some g => [g]
          | none => []
      else []
  | item :: rest, items, ignoringAll, lastReturned =>
    if limit ≤ items then []
    else if ignoringAll ∧ ignoreUntilId ≠ some item.core.id then
      filteredHistoryAux botUserId stopBeforeId ignoreUntilId limit rest items true lastReturned
    else if item.core.msgType = DMsgType.threadCreated then
      filteredHistoryAux botUserId stopBeforeId ignoreUntilId limit rest items false lastReturned
    else if item.core.hiddenContent then
      filteredHistoryAux botUserId stopBeforeId ignoreUntilId limit rest items false lastReturned
    else
      match filterHistoryMessage botUserId stopBeforeId item.core with
      | (some g, allowMore) =>
        if allowMore then
          g :: filteredHistoryAux botUserId stopBeforeId ignoreUntilId limit rest (items + 1)
            false (some item)
        else [g]
      | (none, allowMore) =>
        if allowMore then
          filteredHistoryAux botUserId stopBeforeId ignoreUntilId limit rest items
            false (some item)
        else []

/-- Source: `DiscordBot._filtered_history_iterator` (lines 1897 to 1969),
run over the listed history, newest message first. -/
def filteredHistoryIterator (botUserId : Nat) (stopBeforeId ignoreUntilId : Option Nat)
    (limit : Nat) (history : List DMsg) : List GenMsg :=
  filteredHistoryAux botUserId stopBeforeId ignoreUntilId limit history 0
    ignoreUntilId.isSome none

/-- The C9 failing input: a visible user message whose id 7 equals the
channel marker id. -/
def exMarkerCore : DMsgCore :=
  { id := 7
    msgType := DMsgType.defaultMsg
    authorId := 1
    suppressEmbeds := false
    hiddenContent := false
    hiddenByReaction := false }

/-- The C9 failing input wrapped as a history entry without a reply
reference. -/
def exMarkerMsg : DMsg :=
  { core := exMarkerCore, refResolved := none }

theorem dictGet_dictSet_self {α : Type} (l : List (Nat × α)) (k : Nat) (v : α) :
    dictGet (dictSet l k v) k = some v := by
  induction l with
  | nil => simp [dictGet, dictSet]
  | cons p rest ih =>
    by_cases h : p.1 = k
    · simp [dictGet, dictSet, h]
    · simp [dictGet, dictSet, h, ih]

theorem dictGet_dictSet_ne {α : Type} (l : List (Nat × α)) (k k2 : Nat) (v : α)
    (h : k2 ≠ k) : dictGet (dictSet l k v) k2 = dictGet l k2 := by
  induction l with
  | nil => simp [dictGet, dictSet, Ne.symm h]
  | cons p rest ih =>
    by_cases hp : p.1 = k
    · subst hp
      simp [dictGet, dictSet, Ne.symm h]
    · simp [dictGet, dictSet, hp, ih]

theorem dictGet_dictPop_self {α : Type} (l : List (Nat × α)) (k : Nat) :
    dictGet (dictPop l k) k = none := by
  induction l with
  | nil => simp [dictGet, dictPop]
  | cons p rest ih =>
    by_cases h : p.1 = k
    · simp [dictGet, dictPop, h, ih]
    · simp [dictGet, dictPop, h, ih]

/-- C1: the process_messages tail creates a new response task for a
channel only when that channel has no stored response task at all, or its
stored task is done, which for a task the engine cancelled means the
cancellation has been awaited to completion.  With creation so guarded and
the response task map holding one handle per channel, at most one response
task of a channel is ever active. -/
theorem response_task_created_only_when_idle (s : MQ) (ch : Nat)
    (h : (processMessagesTail s ch).2 = true) :
    dictGet s.responseTasks ch = none ∨
      ∃ t : RTask, dictGet s.responseTasks ch = some t ∧ t.done = true := by
  by_cases hr : s.isResponding ch = true
  · exfalso
    simp [processMessagesTail, hr] at h
  · cases hg : dictGet s.responseTasks ch with
    | none => exact Or.inl rfl
    | some t =>
      refine Or.inr ⟨t, rfl, ?_⟩
      simp [MQ.isResponding, hg] at hr
      exact hr

/-- Witness for C1: a concrete state with one queued message and no
response task, on which the tail step does create a task. -/
theorem response_task_created_only_when_idle_witness :
    dictGet (MQ.mk false [(1, [42])] [] [] [] []).responseTasks 1 = none ∨
      ∃ t : RTask,
        dictGet (MQ.mk false [(1, [42])] [] [] [] []).responseTasks 1 = some t ∧
          t.done = true :=
  response_task_created_only_when_idle (MQ.mk false [(1, [42])] [] [] [] []) 1 (by decide)

/-- C4: for every channel, the first buffer caller of an idle period
becomes the starter: it registers the wait task and will return True,
and after the wait its flush step moves the buffer into the queue, as
only the single latest buffered message when respond_to_latest_only is
configured and as the whole batch otherwise, removing the buffer and the
wait task.  A caller that arrives while the wait task runs only prepends
its message to the buffer and returns False at once, leaving the queue
and the wait task untouched. -/
theorem buffer_starter_and_followers (s : MQ) (ch m : Nat) :
    (s.isBuffering ch = true →
      MQ.bufferEnter s ch m =
        ({ s with buffers := dictSet s.buffers ch (m :: ((dictGet s.buffers ch).getD [])) },
          false)) ∧
    (s.isBuffering ch = false →
      MQ.bufferEnter s ch m =
        ({ s with
            buffers := dictSet s.buffers ch (m :: ((dictGet s.buffers ch).getD [])),
            waitTasks := dictSet s.waitTasks ch false }, true)) ∧
    (∀ latest rest, dictGet s.buffers ch = some (latest :: rest) →
      dictGet (MQ.bufferFlush s ch).buffers ch = none ∧
      (MQ.bufferFlush s ch).isBuffering ch = false ∧
      (s.respondToLatestOnly = true →
        (MQ.bufferFlush s ch).queues =
          dictSet s.queues ch (latest :: ((dictGet s.queues ch).getD []))) ∧
      (s.respondToLatestOnly = false →
        (MQ.bufferFlush s ch).queues =
          dictSet s.queues ch ((latest :: rest).reverse ++ ((dictGet s.queues ch).getD [])))) := by
  refine ⟨?_, ?_, ?_⟩
  · intro h
    simp [MQ.bufferEnter, MQ.isBuffering] at h ⊢
    simp [h]
  · intro h
    simp [MQ.bufferEnter, MQ.isBuffering] at h ⊢
    simp [h]
  · intro latest rest hbuf
    have hflush : MQ.bufferFlush s ch =
        (if s.respondToLatestOnly then
          MQ.appendleft
            { s with waitTasks := dictPop s.waitTasks ch, buffers := dictPop s.buffers ch }
            ch latest
        else
          MQ.extendleft
            { s with waitTasks := dictPop s.waitTasks ch, buffers := dictPop s.buffers ch }
            ch (latest :: rest)) := by
      simp [MQ.bufferFlush, hbuf]
    by_cases hlatest : s.respondToLatestOnly = true
    · refine ⟨?_, ?_, ?_, ?_⟩ <;>
        simp [hflush, hlatest, MQ.appendleft, MQ.isBuffering, dictGet_dictPop_self]
    · simp only [Bool.not_eq_true] at hlatest
      refine ⟨?_, ?_, ?_, ?_⟩ <;>
        simp [hflush, hlatest, MQ.extendleft, MQ.isBuffering, dictGet_dictPop_self]

/-- Witness for C4: concrete states exercising the starter branch, the
follower branch, and both flush configurations. -/
theorem buffer_starter_and_followers_witness :
    (MQ.bufferEnter (MQ.mk true [] [] [(1, false)] [] []) 1 7 =
      ({ MQ.mk true [] [] [(1, false)] [] [] with buffers := [(1, [7])] }, false)) ∧
    (MQ.bufferEnter (MQ.mk true [] [] [] [] []) 1 7 =
      (MQ.mk true [] [(1, [7])] [(1, false)] [] [], true)) ∧
    ((MQ.bufferFlush (MQ.mk true [] [(1, [9, 8])] [(1, false)] [] []) 1).queues = [(1, [9])]) ∧
    ((MQ.bufferFlush (MQ.mk false [] [(1, [9, 8])] [(1, false)] [] []) 1).queues =
      [(1, [8, 9])]) := by
  refine ⟨?_, ?_, ?_, ?_⟩
  · exact (buffer_starter_and_followers (MQ.mk true [] [] [(1, false)] [] []) 1 7).1 (by decide)
  · exact (buffer_starter_and_followers (MQ.mk true [] [] [] [] []) 1 7).2.1 (by decide)
  · exact ((buffer_starter_and_followers (MQ.mk true [] [(1, [9, 8])] [(1, false)] [] []) 1 7).2.2
      9 [8] rfl).2.2.1 rfl
  · exact ((buffer_starter_and_followers (MQ.mk false [] [(1, [9, 8])] [(1, false)] [] []) 1 7).2.2
      9 [8] rfl).2.2.2 rfl

/-- The accumulation polling loop never exits through its message-count
condition: the loop refreshes the local queue_length variable to the
current queue length on every tick, so the threshold it compares against
tracks the current length and the comparison is always satisfied; the
loop runs until the period elapses, for every arrival trace. -/
theorem accumulateAux_full_period (n period : Nat) (len : Nat → Nat) :
    ∀ fuel t, fuel = period + 1 - t → t ≤ period →
      accumulateAux n period len fuel t (len t) = period := by
  intro fuel
  induction fuel with
  | zero =>
    intro t hfuel ht
    exfalso
    omega
  | succ fuel ih =>
    intro t hfuel ht
    by_cases htp : t < period
    · have hcond : len t < len t + n + 1 ∧ t < period := ⟨by omega, htp⟩
      simp only [accumulateAux, if_pos hcond]
      exact ih (t + 1) (by omega) (by omega)
    · have hteq : t = period := by omega
      have hcond : ¬(len t < len t + n + 1 ∧ t < period) := by
        intro hc
        exact htp hc.2
      simp only [accumulateAux, if_neg hcond]
      exact hteq

/-- The wait of `_accumulate_messages` always lasts the full accumulation
period, whatever the configured message count and whatever messages
arrive. -/
theorem accumulateMessages_full_period (n period : Nat) (len : Nat → Nat) :
    accumulateMessages n period len = period := by
  by_cases hn : n = 0
  · simp [accumulateMessages, hn]
  · simp only [accumulateMessages, if_pos hn]
    exact accumulateAux_full_period n period len (period + 1) 0 (by omega) (by omega)

/-- C3: the boundary example of the spec fails on the code.  With
continue_on_additional_messages = 2 and an accumulation period of 5
seconds (50 ticks of 0.1 seconds), and 3 messages present from tick 1
onward, the wait still releases only at tick 50 when the period elapses,
although the release tick the spec describes is tick 1: the early release
on additional messages is unreachable, because the loop re-reads its
queue_length baseline every tick (and because messages accumulated during
the wait are buffered, never reaching the queue the loop measures). -/
theorem accumulation_wait_ignores_arrivals :
    accumulateMessages 2 50 exArrivals = 50 ∧
    accumulateReleaseSpec 2 50 exArrivals = 1 ∧
    exArrivals 1 = 3 := by
  refine ⟨?_, by decide, by decide⟩
  exact accumulateMessages_full_period 2 50 exArrivals

/-- C2: binding the keyword arguments of the call to
`PromptGenerator.generate` made by `_generate_text_response` raises
TypeError on the keyword channel_name, which is not a parameter of
generate, for every body and hence before the prompt is built and before
any backend request: the call never returns a value, so the text-response
path never completes a generation. -/
theorem generate_call_raises_type_err :
    ∀ (α : Type) (body : Unit → α),
      callPromptGeneratorGenerate body = PyCall.typeErr "channel_name" ∧
        ∀ a : α, callPromptGeneratorGenerate body ≠ PyCall.ok a := by
  intro α body
  constructor
  · rfl
  · intro a h
    rw [show callPromptGeneratorGenerate body = PyCall.typeErr "channel_name" from rfl] at h
    exact PyCall.noConfusion h

/-- C10 counterexample: with the automatic throttle id set to 5 and the
manual history marker set to the more recent id 10, the cut-off the code
passes to history assembly is 5, not the more recent of the two. -/
theorem stop_before_not_more_recent :
    stopBeforeMessageIdArg (some 5) (some 10) = some 5 ∧
    stopBeforeMessageIdArg (some 5) (some 10) ≠ some (max 5 10) := by
  decide

/-- C10 amended: when both ids are set for a channel, the automatic
throttle_message_id always takes precedence as the history cut-off,
regardless of which of the two is more recent; the manual
history_marker_id is used only when the throttle id is unset (None or 0). -/
theorem throttle_id_takes_precedence :
    ∀ r h : Nat, r ≠ 0 →
      stopBeforeMessageIdArg (some r) (some h) = some r ∧
      stopBeforeMessageIdArg none (some h) = some h ∧
      stopBeforeMessageIdArg (some 0) (some h) = some h := by
  intro r h hr
  refine ⟨?_, ?_, ?_⟩ <;>
    simp [stopBeforeMessageIdArg, pyOrId, pyTruthyId, hr]

/-- Witness for the C10 amended theorem at throttle id 5 and marker id 10. -/
theorem throttle_id_takes_precedence_witness :
    stopBeforeMessageIdArg (some 5) (some 10) = some 5 ∧
    stopBeforeMessageIdArg none (some 10) = some 10 ∧
    stopBeforeMessageIdArg (some 0) (some 10) = some 10 :=
  throttle_id_takes_precedence 5 10 (by decide)

/-- C5: panic is idempotent per channel.  The second call observes the
running panic task registered by the first call and returns without
touching the buffer, the queue, the response task or the panic task, so
calling panic twice in succession leaves exactly the state the first call
left. -/
theorem panic_idempotent (s : MQ) (ch : Nat) :
    MQ.panic (MQ.panic s ch) ch = MQ.panic s ch := by
  by_cases h : s.isPanicking ch = true
  · simp [MQ.panic, h]
  · simp only [MQ.panic, h]
    have h2 : MQ.isPanicking { s with panicTasks := dictSet s.panicTasks ch false } ch = true := by
      simp [MQ.isPanicking, dictGet_dictSet_self]
    simp [h, h2]

/-- C6 counterexample: with the image generator configured, an image
prompt found, a session reserved, a text task created and the message
task already completed, a CancelledError during the await leaves both
launched child tasks uncancelled and unawaited, and inspects and logs
the exception of no child task, the completed one included. -/
theorem cancel_with_image_task_leaves_children :
    (handleResponseTasks (HandleRespInput.mk true true true true true true false)).children =
      [ChildTask.messageTask, ChildTask.imageTask] ∧
    (handleResponseTasks
      (HandleRespInput.mk true true true true true true false)).cancelledAwaited = [] ∧
    (handleResponseTasks
      (HandleRespInput.mk true true true true true true false)).excInspected = [] ∧
    (HandleRespInput.mk true true true true true true false).cancelledDuringWait = true ∧
    (HandleRespInput.mk true true true true true true false).messageDoneFirst = true := by
  decide

/-- C6 amended: when `_handle_response` is cancelled while awaiting its
children, it cancels and awaits every child it launched only in the case
that no image task was started: when an image task was started, its
cancellation handler cancels and awaits no child at all.  On that
cancellation path the exception of no child task, completed or not, is
inspected or logged; exceptions are inspected and logged only when the
await returns without cancellation, for exactly the child tasks in the
first-completed set. -/
theorem cancel_awaits_children_only_without_image :
    ∀ i : HandleRespInput, i.textTaskCreated = true →
      (i.cancelledDuringWait = true →
        (handleResponseTasks i).cancelledAwaited =
          (if imageTaskStarted i = true then [] else (handleResponseTasks i).children) ∧
        (handleResponseTasks i).excInspected = []) ∧
      (i.cancelledDuringWait = false →
        (handleResponseTasks i).excInspected =
          (handleResponseTasks i).children.filter (doneFirstChild i) ∧
        (handleResponseTasks i).cancelledAwaited = []) := by
  intro i ht
  constructor
  · intro hc
    constructor
    · by_cases hs : imageTaskStarted i = true
      · simp [handleResponseTasks, ht, hc, hs]
      · simp only [Bool.not_eq_true] at hs
        simp [handleResponseTasks, ht, hc, hs]
    · simp [handleResponseTasks, ht, hc]
  · intro hc
    constructor
    · simp [handleResponseTasks, ht, hc]
    · simp [handleResponseTasks, ht, hc]

/-- Witness for the C6 amended theorem: a cancelled run without an image
task cancels and awaits exactly its children and inspects no exception,
and an uncancelled run with an image task inspects exactly the
first-completed children and cancels none. -/
theorem cancel_awaits_children_only_without_image_witness :
    ((handleResponseTasks
        (HandleRespInput.mk false false false true true false false)).cancelledAwaited =
      (if imageTaskStarted (HandleRespInput.mk false false false true true false false) = true
        then []
        else (handleResponseTasks
          (HandleRespInput.mk false false false true true false false)).children) ∧
      (handleResponseTasks
        (HandleRespInput.mk false false false true true false false)).excInspected = []) ∧
    ((handleResponseTasks
        (HandleRespInput.mk true true true true false true false)).excInspected =
      (handleResponseTasks
        (HandleRespInput.mk true true true true false true false)).children.filter
          (doneFirstChild (HandleRespInput.mk true true true true false true false)) ∧
      (handleResponseTasks
        (HandleRespInput.mk true true true true false true false)).cancelledAwaited = []) :=
  ⟨(cancel_awaits_children_only_without_image
      (HandleRespInput.mk false false false true true false false) rfl).1 rfl,
    (cancel_awaits_children_only_without_image
      (HandleRespInput.mk true true true true false true false) rfl).2 rfl⟩

theorem processQueueAux_ok_of_discord (behavior : Nat → Option PyExc)
    (respond : Nat → Bool) :
    ∀ (l handled : List Nat),
      (∀ m ∈ l, respond m = true → ∀ e, behavior m = some e → isDiscordExc e = true) →
      ∃ h2, processQueueAux behavior respond l handled = Except.ok h2 := by
  intro l
  induction l with
  | nil =>
    intro handled _
    exact ⟨handled, rfl⟩
  | cons m rest ih =>
    intro handled hall
    have hrest : ∀ m2 ∈ rest, respond m2 = true →
        ∀ e, behavior m2 = some e → isDiscordExc e = true := by
      intro m2 hm2
      exact hall m2 (List.mem_cons_of_mem m hm2)
    by_cases hr : respond m = true
    · cases hb : behavior m with
      | none =>
        simpa [processQueueAux, hr, hb] using ih (handled ++ [m]) hrest
      | some e =>
        have hd : isDiscordExc e = true := hall m (List.mem_cons_self m rest) hr e hb
        simpa [processQueueAux, hr, hb, hd] using ih (handled ++ [m]) hrest
    · simpa [processQueueAux, hr] using ih handled hrest

theorem processQueueAux_error_not_discord (behavior : Nat → Option PyExc)
    (respond : Nat → Bool) :
    ∀ (l handled : List Nat) (e : PyExc),
      processQueueAux behavior respond l handled = Except.error e →
      isDiscordExc e = false := by
  intro l
  induction l with
  | nil =>
    intro handled e h
    simp [processQueueAux] at h
  | cons m rest ih =>
    intro handled e h
    by_cases hr : respond m = true
    · cases hb : behavior m with
      | none =>
        rw [show processQueueAux behavior respond (m :: rest) handled =
            processQueueAux behavior respond rest (handled ++ [m]) by
          simp [processQueueAux, hr, hb]] at h
        exact ih (handled ++ [m]) e h
      | some e2 =>
        by_cases hd : isDiscordExc e2 = true
        · rw [show processQueueAux behavior respond (m :: rest) handled =
              processQueueAux behavior respond rest (handled ++ [m]) by
            simp [processQueueAux, hr, hb, hd]] at h
          exact ih (handled ++ [m]) e h
        · simp only [Bool.not_eq_true] at hd
          rw [show processQueueAux behavior respond (m :: rest) handled =
              Except.error e2 by simp [processQueueAux, hr, hb, hd]] at h
          cases h
          exact hd
    · rw [show processQueueAux behavior respond (m :: rest) handled =
          processQueueAux behavior respond rest handled by
        simp [processQueueAux, hr]] at h
      exact ih handled e h

/-- C8 counterexample: a backend client error raised for the oldest
queued message escapes the queue-processing loop, terminating it before
the newer message is handled and before the guarantee purge runs. -/
theorem backend_exc_escapes_queue_loop :
    processMessageQueueModel exQueueBehavior (fun _ => true) [2, 1] =
      Except.error PyExc.oobaHttpClientErr ∧
    purgeRan (processMessageQueueModel exQueueBehavior (fun _ => true) [2, 1]) = false := by
  exact ⟨rfl, rfl⟩

/-- C8 amended: the loop of `_process_message_queue` catches and logs
only discord platform exceptions, continuing with the remaining queued
messages and reaching the guarantee purge whenever every exception raised
during orchestration is a discord.DiscordException; any other exception,
backend errors included, escapes the loop, and so an escaping exception
is never a discord one. -/
theorem queue_loop_catches_only_discord :
    ∀ (behavior : Nat → Option PyExc) (respond : Nat → Bool) (q : List Nat),
      ((∀ m ∈ q, respond m = true → ∀ e, behavior m = some e → isDiscordExc e = true) →
        purgeRan (processMessageQueueModel behavior respond q) = true) ∧
      (∀ e, processMessageQueueModel behavior respond q = Except.error e →
        isDiscordExc e = false) := by
  intro behavior respond q
  constructor
  · intro hall
    obtain ⟨h2, hh⟩ := processQueueAux_ok_of_discord behavior respond q.reverse []
      (fun m hm => hall m (List.mem_reverse.mp hm))
    simp [processMessageQueueModel, hh, purgeRan]
  · intro e he
    unfold processMessageQueueModel at he
    cases haux : processQueueAux behavior respond q.reverse [] with
    | ok h2 =>
      rw [haux] at he
      simp at he
    | error e2 =>
      rw [haux] at he
      simp only [Except.error.injEq] at he
      subst he
      exact processQueueAux_error_not_discord behavior respond q.reverse [] e2 haux

/-- Witness for the C8 amended theorem: a queue whose only raised
exception is a discord one reaches the purge, and the escaping error of
the counterexample run is not a discord exception. -/
theorem queue_loop_catches_only_discord_witness :
    purgeRan (processMessageQueueModel (fun _ => some PyExc.discordExc)
      (fun _ => true) [3]) = true ∧
    isDiscordExc PyExc.oobaHttpClientErr = false := by
  constructor
  · exact (queue_loop_catches_only_discord (fun _ => some PyExc.discordExc)
      (fun _ => true) [3]).1 (by
        intro m hm hr e he
        cases he
        rfl)
  · exact (queue_loop_catches_only_discord exQueueBehavior (fun _ => true) [2, 1]).2
      PyExc.oobaHttpClientErr rfl

theorem renderEmit_break_emits (st : RenderSt) (buf resp : String) (lastEx ab : Bool)
    (h : (renderEmit st buf resp lastEx ab).2 = true) :
    (renderEmit st buf resp lastEx ab).1.events.length = st.events.length + 1 ∧
    (renderEmit st buf resp lastEx ab).1.events.take st.events.length = st.events := by
  by_cases h1 : pyStrip resp = ""
  · simp [renderEmit, h1] at h
  · by_cases h2 : lastEx = true
    · constructor <;> simp [renderEmit, h1, h2, List.take_left]
    · simp only [Bool.not_eq_true] at h2
      constructor <;> simp [renderEmit, h1, h2, List.take_left]

theorem renderUnit_emit_or_no_break (mode : StreamKind) (f : String → String × Bool)
    (limit : Nat) (st : RenderSt) (u : String) :
    (∃ buf resp lastEx ab,
      renderUnit mode f limit st u = renderEmit st buf resp lastEx ab) ∨
    (renderUnit mode f limit st u).2 = false := by
  cases mode with
  | tokenMode =>
    by_cases ht : u = ""
    · right
      simp [renderUnit, ht]
    · left
      refine ⟨if limit < (pyStrip (f (st.buffer ++ u)).1).length then ""
          else (f (st.buffer ++ u)).1,
        (f ((if limit < (pyStrip (f (st.buffer ++ u)).1).length then ""
          else st.response) ++ u)).1,
        if limit < (pyStrip (f (st.buffer ++ u)).1).length then false
          else st.lastMessageExists,
        (f ((if limit < (pyStrip (f (st.buffer ++ u)).1).length then ""
          else st.response) ++ u)).2, ?_⟩
      simp only [renderUnit]
      rw [if_neg ht]
  | sentenceMode =>
    by_cases hf : (f u).1 = ""
    · right
      simp [renderUnit, hf]
    · left
      refine ⟨st.buffer,
        (if limit < (pyStrip (st.response ++ (rstripSpaces (f u).1 ++ " "))).length then ""
          else st.response) ++ (rstripSpaces (f u).1 ++ " "),
        if limit < (pyStrip (st.response ++ (rstripSpaces (f u).1 ++ " "))).length then false
          else st.lastMessageExists,
        (f u).2, ?_⟩
      simp only [renderUnit]
      rw [if_neg hf]

/-- C7 amended: whenever a stream unit makes the loop break, which
happens exactly when the filter reported abort and the filtered running
response was non-blank, the renderer first flushes that response as one
send or edit (the already-accepted content of every earlier unit is
preserved within it and every earlier outbound operation is kept) and
then consumes no further stream units; an abort reported while the
filtered response is blank does not stop consumption. -/
theorem render_break_flushes_then_stops :
    ∀ (mode : StreamKind) (f : String → String × Bool) (limit : Nat) (u : String)
      (rest : List String) (st : RenderSt),
      (renderUnit mode f limit st u).2 = true →
      renderLoop mode f limit (u :: rest) st = (renderUnit mode f limit st u).1 ∧
      (renderUnit mode f limit st u).1.events.length = st.events.length + 1 ∧
      (renderUnit mode f limit st u).1.events.take st.events.length = st.events := by
  intro mode f limit u rest st h
  constructor
  · simp [renderLoop, h]
  · rcases renderUnit_emit_or_no_break mode f limit st u with ⟨buf, resp, lastEx, ab, heq⟩ | hno
    · rw [heq] at h ⊢
      exact renderEmit_break_emits st buf resp lastEx ab h
    · rw [hno] at h
      cases h

/-- Witness for the C7 amended theorem: a unit carrying a stop marker at
its end breaks the loop after one send and the trailing unit is never
consumed. -/
theorem render_break_flushes_then_stops_witness :
    renderLoop StreamKind.sentenceMode exStopMarkerFilter 2000 ["stop here", "more"]
        (renderInit false) =
      (renderUnit StreamKind.sentenceMode exStopMarkerFilter 2000
        (renderInit false) "stop here").1 ∧
    (renderUnit StreamKind.sentenceMode exStopMarkerFilter 2000
        (renderInit false) "stop here").1.events.length =
      (renderInit false).events.length + 1 ∧
    (renderUnit StreamKind.sentenceMode exStopMarkerFilter 2000
        (renderInit false) "stop here").1.events.take
        (renderInit false).events.length =
      (renderInit false).events :=
  render_break_flushes_then_stops StreamKind.sentenceMode exStopMarkerFilter 2000
    "stop here" ["more"] (renderInit false) rfl

/-- C7 counterexample: in sentence mode, a unit that the filter discards
entirely while reporting abort does not stop the renderer: the abort is
dropped by the empty-sentence continue, the following unit is consumed,
and its content is sent after the abort point. -/
theorem render_consumes_units_after_abort :
    (exImpersonationFilter "Bob: hi").2 = true ∧
    (renderLoop StreamKind.sentenceMode exImpersonationFilter 2000 ["Bob: hi", "hello"]
        (renderInit false)).events = [RenderEv.sendMsg "hello"] ∧
    (renderStreamingResponse StreamKind.sentenceMode exImpersonationFilter 2000
        ["Bob: hi", "hello"] false).1 = 1 := by
  exact ⟨rfl, rfl, rfl⟩

/-- C9: the history marker is not an exclusive bound in the code.  On a
history whose newest message carries exactly the marker id, the iterator
yields that message itself into the rendered history (converted but
unsanitized) and only then stops, although the docstring of
`_filter_history_message` and the spec say messages at or before the
marker are excluded. -/
theorem marker_message_yielded_into_history :
    filteredHistoryIterator 99 (some 7) none 10 [exMarkerMsg] =
      [toGenericMessage exMarkerCore] ∧
    exMarkerCore.id = 7 ∧
    ((filteredHistoryIterator 99 (some 7) none 10 [exMarkerMsg]).map GenMsg.id).contains 7
      = true := by
  exact ⟨rfl, rfl, rfl⟩
